import Mathlib

/-!
Verification of the SAGA choreography runtime of the repository
`golangda/golang-interview-questions`.

The development shallowly embeds the three subsystems the claims are about:

* the step processor of `slb-uk/rest-go-webservice/project/pkg/kafka/kafka.go`
  (the `message-worker` consumer: `consumerHandler.ConsumeClaim`, `withTx`,
  `checkIdempotent`, `markIdempotent`, `logSaga`);
* the gateway's result cache and ack consumer from the same file
  (`putAck`, `getAck`, `operationResultHandler`, `ackHandler.ConsumeClaim`);
* the staged-retry / DLQ pipeline of `slb-uk/kafka-go-sarama-demo`
  (`internal/retry/retry.go`, the processor's `parseAttempt` /
  `publishNextRetry`, the retry worker's requeue loop) and the
  `slb-uk/saga-choreo-lab` step service and DLQ replayer
  (`Process`, `RunStepService`, `RunDLQReplayer`).

Pure functions become Lean functions; the MySQL database becomes an explicit
`DB` record threaded through a transaction function; broker interactions
(produces, offset commits) become explicit action traces.
-/

namespace SagaLab

/-- A JSON-ish payload value as used by the Go services.  The Go code stores
`map[string]any` payloads but only ever reads string entries (via `.(string)`
type assertions) and writes string and `int64` entries, so two constructors
suffice. -/
inductive PVal
  | s (v : String)
  | i (n : Int)
deriving DecidableEq, Repr

/-- The command envelope, `Command` in the worker's `main.go`
(kafka.go, consumer document). -/
structure Command where
  traceID : String
  command : String
  resource : String
  payload : List (String × PVal)
deriving DecidableEq, Repr

/-- The `*struct{ Code, Detail string }` error attached to an `Ack`. -/
structure ErrInfo where
  code : String
  detail : String
deriving DecidableEq, Repr

/-- The ack envelope, `Ack` in both the worker and the gateway. -/
structure Ack where
  traceID : String
  status : String
  event : String
  payload : List (String × PVal)
  error : Option ErrInfo
deriving DecidableEq, Repr

/-- The relational store touched by the step processor: the `messages` table
(with its auto-increment counter), the `idempotency_keys` table
(`idempotency_key`, `last_status`, `trace_id`) and the append-only
`saga_log` table (`trace_id`, `step`, `status`, `error_code`, `error_detail`). -/
structure DB where
  messages : List (Int × String)
  nextId : Int
  idem : List (String × String × String)
  saga : List (String × String × String × String × String)
deriving DecidableEq, Repr

/-- Go `v, _ := payload[k].(string)`: a map lookup followed by a string type
assertion whose failure yields the zero value `""`. -/
def pstr (p : List (String × PVal)) (k : String) : String :=
  match p.find? (fun e => e.1 = k) with
  | some (_, PVal.s v) => v
  | _ => ""

/-- Go `id, _ := strconv.ParseInt(idStr, 10, 64)` with the error ignored:
optional sign followed by decimal digits; a syntax error yields 0, a range
error yields the clamped int64 bound (Go returns the bound together with
`ErrRange`, and the caller drops the error). -/
def parseIntGo (s : String) : Int :=
  let core : Int → List Char → Int := fun sign ds =>
    if ds ≠ [] ∧ ds.all Char.isDigit then
      let n : Nat := ds.foldl (fun acc c => acc * 10 + (c.toNat - 48)) 0
      let v : Int := sign * (n : Int)
      if v < -(2 ^ 63) then -(2 ^ 63)
      else if v > 2 ^ 63 - 1 then 2 ^ 63 - 1
      else v
    else 0
  match s.toList with
  | '+' :: rest => core 1 rest
  | '-' :: rest => core (-1) rest
  | l => core 1 l

/-- `checkIdempotent` (kafka.go:250): `SELECT 1 FROM idempotency_keys WHERE
idempotency_key=?` — true iff the key is recorded. -/
def checkIdempotent (db : DB) (key : String) : Bool :=
  db.idem.any (fun e => e.1 = key)

/-- `markIdempotent` (kafka.go:261): `INSERT IGNORE INTO
idempotency_keys(idempotency_key, last_status, trace_id)` — a no-op when the
primary key is already present. -/
def markIdempotent (db : DB) (key traceID status : String) : DB :=
  if db.idem.any (fun e => e.1 = key) then db
  else { db with idem := (key, status, traceID) :: db.idem }

/-- `logSaga` (kafka.go:266): append one `saga_log` row. -/
def logSaga (db : DB) (traceID step status code detail : String) : DB :=
  { db with saga := db.saga ++ [(traceID, step, status, code, detail)] }

/-- Result of the `withTx` closure of `ConsumeClaim` (kafka.go:115–207): the
committed database plus the `status`, `event`, `payload` and `e` variables the
closure mutates. -/
structure TxResult where
  db : DB
  status : String
  event : String
  payload : List (String × PVal)
  err : Option ErrInfo
deriving DecidableEq, Repr

/-- The body of the `withTx` closure in `ConsumeClaim` (kafka.go:115–207),
run against a database in which every `Exec`/`QueryRow` succeeds (the
deterministic store model): check idempotency, dispatch on `cmd.Command`,
append the saga row, and mark the idempotency key.  The Go `case` bodies that
fail with `NOT_FOUND` `return nil` *before* `markIdempotent`, so those paths
record no idempotency row; the `default` (unsupported) path falls through to
`markIdempotent` with status `FAILURE`.  `RowsAffected` of the MySQL driver
counts changed rows, so an `UPDATE` matching a row that already holds the new
content reports 0 and is classified `NOT_FOUND`. -/
def runTx (db : DB) (key : String) (cmd : Command) : TxResult :=
  if checkIdempotent db key then
    ⟨db, "SUCCESS", "", [], none⟩
  else
    match cmd.command with
    | "Create" =>
      let m := pstr cmd.payload "message"
      let id := db.nextId
      let db1 := { db with messages := db.messages ++ [(id, m)], nextId := db.nextId + 1 }
      let db2 := logSaga db1 cmd.traceID "CreateMessage" "SUCCESS" "" ""
      ⟨markIdempotent db2 key cmd.traceID "SUCCESS",
        "SUCCESS", "MessageCreated", [("id", PVal.i id), ("message", PVal.s m)], none⟩
    | "Read" =>
      let id := parseIntGo (pstr cmd.payload "id")
      match db.messages.find? (fun r => r.1 = id) with
      | none =>
        let detail := "id=" ++ toString id
        ⟨logSaga db cmd.traceID "ReadMessage" "FAILURE" "NOT_FOUND" detail,
          "FAILURE", "", [], some ⟨"NOT_FOUND", detail⟩⟩
      | some (mid, m) =>
        let db1 := logSaga db cmd.traceID "ReadMessage" "SUCCESS" "" ""
        ⟨markIdempotent db1 key cmd.traceID "SUCCESS",
          "SUCCESS", "MessageRead", [("id", PVal.i mid), ("message", PVal.s m)], none⟩
    | "Update" =>
      let id := parseIntGo (pstr cmd.payload "id")
      let m := pstr cmd.payload "message"
      if db.messages.any (fun r => r.1 = id ∧ r.2 ≠ m) then
        let db0 := { db with messages := db.messages.map (fun r => if r.1 = id then (r.1, m) else r) }
        let db1 := logSaga db0 cmd.traceID "UpdateMessage" "SUCCESS" "" ""
        ⟨markIdempotent db1 key cmd.traceID "SUCCESS",
          "SUCCESS", "MessageUpdated", [("id", PVal.i id), ("message", PVal.s m)], none⟩
      else
        let detail := "id=" ++ toString id
        ⟨logSaga db cmd.traceID "UpdateMessage" "FAILURE" "NOT_FOUND" detail,
          "FAILURE", "", [], some ⟨"NOT_FOUND", detail⟩⟩
    | "Delete" =>
      let id := parseIntGo (pstr cmd.payload "id")
      if db.messages.any (fun r => r.1 = id) then
        let db0 := { db with messages := db.messages.filter (fun r => ¬ r.1 = id) }
        let db1 := logSaga db0 cmd.traceID "DeleteMessage" "SUCCESS" "" ""
        ⟨markIdempotent db1 key cmd.traceID "SUCCESS",
          "SUCCESS", "MessageDeleted", [("id", PVal.i id)], none⟩
      else
        let detail := "id=" ++ toString id
        ⟨logSaga db cmd.traceID "DeleteMessage" "FAILURE" "NOT_FOUND" detail,
          "FAILURE", "", [], some ⟨"NOT_FOUND", detail⟩⟩
    | _ =>
      ⟨markIdempotent db key cmd.traceID "FAILURE",
        "FAILURE", "", [], some ⟨"UNSUPPORTED", "unknown command"⟩⟩

/-- Broker-side actions of one `ConsumeClaim` iteration: the ack produce with
its outcome (`SendMessage` succeeded or not), the offset mark
(`sess.MarkMessage`), and a DLQ produce (never emitted by this worker, listed
because the spec routes malformed envelopes there). -/
inductive SAction
  | ackProduce (a : Ack) (ok : Bool)
  | markOffset
  | dlqProduce (topic : String)
deriving DecidableEq, Repr

/-- The effective idempotency key of a message: `key := string(msg.Key); if
key == "" { key = cmd.TraceID }` (kafka.go:116–119). -/
def effKey (msgKey : String) (cmd : Command) : String :=
  if msgKey = "" then cmd.traceID else msgKey

/-- The ack built at kafka.go:216.  `txErr = some d` models `withTx` failing
at commit time with error text `d`: the transaction rolls back, and the
handler overwrites `status`/`event`/`e` with `FAILURE`/`Error`/`INTERNAL`
while keeping whatever the closure had written into `payload`. -/
def ackOf (db : DB) (msgKey : String) (cmd : Command) (txErr : Option String) : Ack :=
  let r := runTx db (effKey msgKey cmd) cmd
  match txErr with
  | none => ⟨cmd.traceID, r.status, r.event, r.payload, r.err⟩
  | some d => ⟨cmd.traceID, "FAILURE", "Error", r.payload, some ⟨"INTERNAL", d⟩⟩

/-- One iteration of `consumerHandler.ConsumeClaim` (kafka.go:102–231) on a
message with key `msgKey` whose value decodes to `decoded` (`none` models a
`json.Unmarshal` error).  `txErr` injects a transaction (commit) failure,
`ackOk` the outcome of the ack `SendMessage`.  Returns the database after the
iteration and the trace of broker actions, in program order.  A decode
failure logs and `continue`s: no transaction, no produce, no offset mark.  A
produce failure is only logged; `sess.MarkMessage` runs unconditionally
afterwards. -/
def consumeStep (db : DB) (msgKey : String) (decoded : Option Command)
    (txErr : Option String) (ackOk : Bool) : DB × List SAction :=
  match decoded with
  | none => (db, [])
  | some cmd =>
    let db' := match txErr with
      | none => (runTx db (effKey msgKey cmd) cmd).db
      | some _ => db
    (db', [SAction.ackProduce (ackOf db msgKey cmd txErr) ackOk, SAction.markOffset])

/-- The fate of one delivery: the injected transaction error (if any) and the
ack-produce outcome. -/
abbrev Fate := Option String × Bool

/-- Redeliver the same message (same key, same decoded command) once per fate,
threading the database. -/
def runDeliveries (msgKey : String) (cmd : Command) : DB → List Fate → DB
  | db, [] => db
  | db, f :: fs =>
    runDeliveries msgKey cmd (consumeStep db msgKey (some cmd) f.1 f.2).1 fs

/-- Number of deliveries in a redelivery sequence that change the `messages`
table. -/
def effectCount (msgKey : String) (cmd : Command) : DB → List Fate → Nat
  | _, [] => 0
  | db, f :: fs =>
    let db' := (consumeStep db msgKey (some cmd) f.1 f.2).1
    (if db'.messages = db.messages then 0 else 1) + effectCount msgKey cmd db' fs

/-! ## Gateway result cache and ack consumer
(`main.go` of the API document in kafka.go: `putAck`, `getAck`,
`operationResultHandler`, `ackHandler.ConsumeClaim`).  Time is a `Nat`
(seconds or any fixed unit); the Go pair of maps `resultCache` /
`resultExpires`, always written and deleted together, is one association
list `trace_id ↦ (ack, expiry)`. -/

/-- The gateway's result cache. -/
abbrev Cache := List (String × Ack × Nat)

/-- `putAck` (kafka.go:333): store the ack under its trace id and set the
expiry to `now + cacheTTL` — a Go map assignment, so any previous entry for
the same trace id is replaced. -/
def putAck (cache : Cache) (now ttl : Nat) (a : Ack) : Cache :=
  (a.traceID, a, now + ttl) :: cache.filter (fun e => ¬ e.1 = a.traceID)

/-- `getAck` (kafka.go:340): return the cached ack unless the entry is absent
or `time.Now().After(exp)` (strictly past its expiry). -/
def getAck (cache : Cache) (now : Nat) (id : String) : Option Ack :=
  match cache.find? (fun e => e.1 = id) with
  | none => none
  | some (_, a, exp) => if now > exp then none else some a

/-- The three HTTP outcomes the spec names for `GET /operations/{trace_id}`:
`200` with the ack body, `204 No Content`, `410 Gone`. -/
inductive HttpResult
  | okAck (a : Ack)
  | noContent
  | gone
deriving DecidableEq, Repr

/-- `operationResultHandler` (kafka.go:435–454): poll `getAck` in a loop; on
a hit encode the ack (HTTP 200), when the 15-second context expires answer
`204 No Content`.  `polls` is the sequence of (time, cache snapshot) pairs at
which the loop calls `getAck` before the deadline fires; the empty suffix is
`ctx.Done()`. -/
def operationResult (id : String) : List (Nat × Cache) → HttpResult
  | [] => HttpResult.noContent
  | (t, c) :: rest =>
    match getAck c t id with
    | some a => HttpResult.okAck a
    | none => operationResult id rest

/-- One iteration of `ackHandler.ConsumeClaim` (kafka.go:515–524) on a
message whose value decodes to `decoded` (`none` models a `json.Unmarshal`
error).  Returns the cache afterwards and whether the offset was marked: the
handler runs `putAck` and `sess.MarkMessage` iff the decode succeeded and the
ack's trace id is non-empty. -/
def ackConsumeStep (cache : Cache) (now ttl : Nat) (decoded : Option Ack) :
    Cache × Bool :=
  match decoded with
  | none => (cache, false)
  | some a =>
    if a.traceID ≠ "" then (putAck cache now ttl a, true) else (cache, false)

/-! ## Staged retry / DLQ pipeline of `kafka-go-sarama-demo`
(`internal/retry/retry.go`; the processor's `parseAttempt` and
`publishNextRetry`; the retry worker, which re-queues each retry-topic
message to `events.v1` with key, value and headers preserved). -/

/-- A Kafka message as the demo sees it: key, value, headers. -/
structure KMsg where
  key : String
  value : String
  headers : List (String × String)
deriving DecidableEq, Repr

/-- `strconv.Atoi` as used by `parseAttempt`: `some n` for an optional sign
followed by decimal digits within the int64 range, `none` otherwise (on a
range error Go also reports an error, which makes `parseAttempt` skip the
header). -/
def atoiGo (s : String) : Option Int :=
  let core : Int → List Char → Option Int := fun sign ds =>
    if ds ≠ [] ∧ ds.all Char.isDigit then
      let n : Nat := ds.foldl (fun acc c => acc * 10 + (c.toNat - 48)) 0
      let v : Int := sign * (n : Int)
      if -(2 ^ 63) ≤ v ∧ v ≤ 2 ^ 63 - 1 then some v else none
    else none
  match s.toList with
  | '+' :: rest => core 1 rest
  | '-' :: rest => core (-1) rest
  | l => core 1 l

/-- `retry.HeaderAttempt` (retry.go). -/
def headerAttempt : String := "x-retry-attempt"

/-- `retry.HeaderError` (retry.go). -/
def headerError : String := "x-error"

/-- `retry.Stages` (retry.go): topic and delay (in seconds) of each stage. -/
def Stages : List (String × Nat) :=
  [("events.v1.retry.5s", 5), ("events.v1.retry.30s", 30), ("events.v1.retry.2m", 120)]

/-- `retry.Next` (retry.go:21): the stage indexed by `attempt`, or none when
the stages are exhausted.  The Go code indexes `Stages[attempt]` guarded only
by `attempt < len(Stages)` and would panic for a negative attempt; no header
the pipeline itself writes is negative, and we return `none` there. -/
def retryNext (attempt : Int) : Option (String × Nat) :=
  if 0 ≤ attempt ∧ attempt < 3 then Stages.get? attempt.toNat else none

/-- `parseAttempt` (processor `main.go`): scan the headers in order and
return the value of the first `x-retry-attempt` header that `Atoi` accepts;
default 0. -/
def parseAttempt : List (String × String) → Int
  | [] => 0
  | (k, v) :: rest =>
    if k = headerAttempt then
      match atoiGo v with
      | some n => n
      | none => parseAttempt rest
    else parseAttempt rest

/-- The error produced by the demo's `businessLogic` for a `fail:`-prefixed
value (`errors.New("downstream: simulated failure")`). -/
def simulatedFailure : String := "downstream: simulated failure"

/-- `publishNextRetry` (processor `main.go`:66–93): parse the attempt, and
either publish to the next retry stage with an *appended*
`x-retry-attempt = attempt+1` header, or — stages exhausted — publish to
`events.v1.dlq` with an appended `x-retry-attempt = attempt` header.  Both
branches also append `x-error`; neither branch removes or overwrites the
existing headers, and neither adds any original-topic header.  Returns the
destination topic and the produced message. -/
def publishNextRetry (m : KMsg) (err : String) : String × KMsg :=
  let attempt := parseAttempt m.headers
  match retryNext attempt with
  | some stage =>
    (stage.1,
      ⟨m.key, m.value,
        m.headers ++ [(headerAttempt, toString (attempt + 1)), (headerError, err)]⟩)
  | none =>
    ("events.v1.dlq",
      ⟨m.key, m.value,
        m.headers ++ [(headerAttempt, toString attempt), (headerError, err)]⟩)

/-- The content of the message consumed at hop `n` of a persistently failing
message: the retry worker re-queues every retry-stage message to `events.v1`
with key, value and headers unchanged (`Headers: msg.Headers`), so the next
consumption sees exactly the message `publishNextRetry` produced. -/
def trajMsg (m : KMsg) : Nat → KMsg
  | 0 => m
  | n + 1 => (publishNextRetry (trajMsg m n) simulatedFailure).2

/-- The topic `publishNextRetry` targets at hop `n` of a persistently failing
message. -/
def trajTopic (m : KMsg) (n : Nat) : String :=
  (publishNextRetry (trajMsg m n) simulatedFailure).1

/-! ## `saga-choreo-lab` step service and DLQ replayer
(`common` package in the saga-choreo-lab README document: `Process`,
`RunStepService`, `RunDLQReplayer`). -/

/-- The saga event envelope (`common.Event`); the timestamp is a `Nat`. -/
structure Event where
  sagaID : String
  step : Int
  schemaVersion : Int
  ts : Nat
deriving DecidableEq, Repr

/-- `common.Process` (saga-choreo-lab): copy the event with `Step = step+1`;
only step 5 honours `FAIL_MODE`.  `flakyHit` stands for
`rand.Float64() < p` in the `flaky:` branch.  Returns the next event and
whether the failure is fatal. -/
def Process (step : Int) (failMode : String) (flakyHit : Bool) (evt : Event) :
    Event × Bool :=
  let next := { evt with step := step + 1 }
  if step ≠ 5 ∨ failMode = "" ∨ failMode = "none" then (next, false)
  else if failMode.startsWith "flaky:" then
    (if flakyHit then evt else next, false)
  else if failMode = "retryable" then (evt, false)
  else if failMode = "fatal" then (evt, true)
  else (next, false)

/-- The message `RunStepService` produces for one consumed message
(saga-choreo-lab, the loop body after a successful decode): the key is
preserved, an `x-saga-id` header is appended, and on a fatal outcome the
message goes to the DLQ topic with an appended
`x-original-topic = TOPIC_IN` header; otherwise to `TOPIC_OUT`.  Returns
(destination topic, produced event, produced headers, key). -/
def stepServiceProduce (topicIn topicOut dlqTopic : String) (step : Int)
    (failMode : String) (flakyHit : Bool) (key : String)
    (hdrs : List (String × String)) (evt : Event) :
    String × Event × List (String × String) × String :=
  let r := Process step failMode flakyHit evt
  let hs := hdrs ++ [("x-saga-id", evt.sagaID)]
  if r.2 then
    (dlqTopic, r.1, hs ++ [("x-original-topic", topicIn)], key)
  else
    (topicOut, r.1, hs, key)

/-- The replay target `RunDLQReplayer` computes: start from `REPLAY_TARGET`
and let every `x-original-topic` header overwrite it (the Go loop keeps the
last one). -/
def lastOriginalTopic (replayDefault : String) (hdrs : List (String × String)) :
    String :=
  hdrs.foldl (fun acc h => if h.1 = "x-original-topic" then h.2 else acc)
    replayDefault

/-- Broker actions of one DLQ-replayer iteration. -/
inductive RAction
  | commitOffset
  | replayTo (topic : String) (key value : String) (hdrs : List (String × String))
deriving DecidableEq, Repr

/-- One iteration of `RunDLQReplayer` (saga-choreo-lab) on a DLQ message with
the given key/value/headers whose value decodes to `decoded`.  The reader is
a `kafka-go` group reader and the loop fetches with `ReadMessage`, which
commits the message's offset before returning it, so every iteration begins
with an offset commit.  Then: decode failure → skip; `SAGA_ID_FILTER` set and
not matching → skip; empty replay target → skip; otherwise produce the
identical key/value/headers to the computed target topic (a produce error is
only logged). -/
def replayStep (replayDefault sagaFilter : String) (key value : String)
    (hdrs : List (String × String)) (decoded : Option Event) : List RAction :=
  RAction.commitOffset ::
    match decoded with
    | none => []
    | some evt =>
      if sagaFilter ≠ "" ∧ evt.sagaID ≠ sagaFilter then []
      else
        let orig := lastOriginalTopic replayDefault hdrs
        if orig = "" then []
        else [RAction.replayTo orig key value hdrs]

/-! ## Helper lemmas -/

theorem runTx_processed (db : DB) (key : String) (cmd : Command)
    (h : checkIdempotent db key = true) :
    runTx db key cmd = ⟨db, "SUCCESS", "", [], none⟩ := by
  simp [runTx, h]

theorem checkIdempotent_markIdempotent (db : DB) (key traceID status : String) :
    checkIdempotent (markIdempotent db key traceID status) key = true := by
  by_cases h : db.idem.any (fun e => e.1 = key)
  · simp [markIdempotent, h, checkIdempotent]
  · simp [markIdempotent, h, checkIdempotent]

theorem checkIdempotent_logSaga (db : DB) (key t s st c d : String) :
    checkIdempotent (logSaga db t s st c d) key = checkIdempotent db key := by
  simp [logSaga, checkIdempotent]

theorem runTx_mark_or_same (db : DB) (key : String) (cmd : Command) :
    checkIdempotent (runTx db key cmd).db key = true ∨
    (runTx db key cmd).db.messages = db.messages := by
  by_cases hk : checkIdempotent db key
  · right; rw [runTx_processed db key cmd hk]
  · unfold runTx
    simp only [hk, Bool.false_eq_true, if_false]
    split
    · left; exact checkIdempotent_markIdempotent _ _ _ _
    · split
      · right; simp [logSaga]
      · left; exact checkIdempotent_markIdempotent _ _ _ _
    · split
      · left; exact checkIdempotent_markIdempotent _ _ _ _
      · right; simp [logSaga]
    · split
      · left; exact checkIdempotent_markIdempotent _ _ _ _
      · right; simp [logSaga]
    · left; exact checkIdempotent_markIdempotent _ _ _ _

theorem runTx_keyIn_of_messages_change (db : DB) (key : String) (cmd : Command)
    (h : (runTx db key cmd).db.messages ≠ db.messages) :
    checkIdempotent (runTx db key cmd).db key = true := by
  rcases runTx_mark_or_same db key cmd with hm | hs
  · exact hm
  · exact absurd hs h

theorem consumeStep_db_of_keyIn (db : DB) (msgKey : String) (cmd : Command)
    (txErr : Option String) (ackOk : Bool)
    (h : checkIdempotent db (effKey msgKey cmd) = true) :
    (consumeStep db msgKey (some cmd) txErr ackOk).1 = db := by
  cases txErr <;> simp [consumeStep, runTx_processed _ _ _ h]

theorem consumeStep_keyIn_of_change (db : DB) (msgKey : String) (cmd : Command)
    (txErr : Option String) (ackOk : Bool)
    (h : (consumeStep db msgKey (some cmd) txErr ackOk).1.messages ≠ db.messages) :
    checkIdempotent (consumeStep db msgKey (some cmd) txErr ackOk).1
      (effKey msgKey cmd) = true := by
  cases txErr with
  | none =>
    simpa [consumeStep] using
      runTx_keyIn_of_messages_change db (effKey msgKey cmd) cmd
        (by simpa [consumeStep] using h)
  | some d =>
    exact absurd
      (show (consumeStep db msgKey (some cmd) (some d) ackOk).1.messages = db.messages from rfl)
      h

theorem effectCount_zero_of_keyIn (msgKey : String) (cmd : Command) :
    ∀ (fates : List Fate) (db : DB),
      checkIdempotent db (effKey msgKey cmd) = true →
      effectCount msgKey cmd db fates = 0 := by
  intro fates
  induction fates with
  | nil => intro db _; rfl
  | cons f fs ih =>
    intro db h
    have hdb := consumeStep_db_of_keyIn db msgKey cmd f.1 f.2 h
    simp [effectCount, hdb, ih db h]

theorem effectCount_le_one (msgKey : String) (cmd : Command) :
    ∀ (fates : List Fate) (db : DB), effectCount msgKey cmd db fates ≤ 1 := by
  intro fates
  induction fates with
  | nil => intro db; simp [effectCount]
  | cons f fs ih =>
    intro db
    by_cases h : (consumeStep db msgKey (some cmd) f.1 f.2).1.messages = db.messages
    · simpa [effectCount, h] using ih (consumeStep db msgKey (some cmd) f.1 f.2).1
    · have hk := consumeStep_keyIn_of_change db msgKey cmd f.1 f.2 h
      have hz := effectCount_zero_of_keyIn msgKey cmd fs
        (consumeStep db msgKey (some cmd) f.1 f.2).1 hk
      simp [effectCount, h, hz]

/-! ## Claim theorems: step processor -/

/-- C1: For every idempotency key, at most one DB effect on the `messages`
table is applied regardless of how many times the same command is
redelivered, because `checkIdempotent` and `markIdempotent` run inside the
same transaction as the effect: (1) across any redelivery sequence at most
one delivery changes the `messages` table; (2) a transaction failure rolls
back the whole iteration, leaving the database untouched; (3) whenever an
iteration changes the `messages` table, the committed state also carries the
idempotency record for the message's key. -/
theorem c1_at_most_one_effect :
    (∀ (db : DB) (msgKey : String) (cmd : Command) (fates : List Fate),
        effectCount msgKey cmd db fates ≤ 1) ∧
    (∀ (db : DB) (msgKey : String) (cmd : Command) (d : String) (ackOk : Bool),
        (consumeStep db msgKey (some cmd) (some d) ackOk).1 = db) ∧
    (∀ (db : DB) (msgKey : String) (cmd : Command) (txErr : Option String) (ackOk : Bool),
        (consumeStep db msgKey (some cmd) txErr ackOk).1.messages ≠ db.messages →
        checkIdempotent (consumeStep db msgKey (some cmd) txErr ackOk).1
          (effKey msgKey cmd) = true) :=
  ⟨fun db msgKey cmd fates => effectCount_le_one msgKey cmd fates db,
   fun _ _ _ _ _ => rfl,
   fun db msgKey cmd txErr ackOk h =>
     consumeStep_keyIn_of_change db msgKey cmd txErr ackOk h⟩

/-- Witness for C1 at a concrete input: a first `Create` on an empty store
changes the `messages` table, and the committed state indeed carries the
idempotency record for the message key. -/
theorem c1_witness :
    checkIdempotent
        (consumeStep ⟨[], 1, [], []⟩ "k"
            (some ⟨"t", "Create", "Message", [("message", PVal.s "hello")]⟩) none true).1
        "k" = true :=
  c1_at_most_one_effect.2.2 ⟨[], 1, [], []⟩ "k"
    ⟨"t", "Create", "Message", [("message", PVal.s "hello")]⟩ none true (by decide)

/-- C2 counterexample: the claim says the consumer offset is committed only
after the ack produce for the message returns success.  In
`ConsumeClaim` (kafka.go:224–228) a failed `SendMessage` is merely logged and
`sess.MarkMessage` still runs: here the ack produce fails (`ok = false`),
yet the trace still ends with the offset mark. -/
theorem c2_counterexample :
    (consumeStep ⟨[], 1, [], []⟩ "k"
        (some ⟨"t", "Create", "Message", [("message", PVal.s "hello")]⟩) none false).2 =
      [SAction.ackProduce
          ⟨"t", "SUCCESS", "MessageCreated",
            [("id", PVal.i 1), ("message", PVal.s "hello")], none⟩ false,
        SAction.markOffset] := by
  rfl

/-- C2 amended: for every consumed command message that decodes, the step
processor marks the consumer offset after the ack produce *attempt* returns
— whether it succeeded or failed; the offset is never marked before the
produce attempt. -/
theorem c2_mark_after_produce_attempt :
    ∀ (db : DB) (msgKey : String) (cmd : Command) (txErr : Option String) (ackOk : Bool),
      (consumeStep db msgKey (some cmd) txErr ackOk).2 =
        [SAction.ackProduce (ackOf db msgKey cmd txErr) ackOk, SAction.markOffset] :=
  fun _ _ _ _ _ => rfl

/-- C6 counterexample: the claim says a command whose envelope fails to
decode is routed directly to the DLQ.  `ConsumeClaim` (kafka.go:105–108)
logs `bad command` and `continue`s: the iteration performs no action at all
— in particular no `dlqProduce` — and leaves the database untouched. -/
theorem c6_counterexample :
    consumeStep ⟨[], 1, [], []⟩ "k" none none true = (⟨[], 1, [], []⟩, []) := by
  rfl

/-- C6 amended: for every inbound command whose envelope fails to decode,
the step processor performs no domain effect and produces nothing — no DLQ
publish, no ack, and no offset mark; it logs and skips the message. -/
theorem c6_malformed_skipped :
    ∀ (db : DB) (msgKey : String) (txErr : Option String) (ackOk : Bool),
      consumeStep db msgKey none txErr ackOk = (db, []) :=
  fun _ _ _ _ => rfl

/-- C7 counterexample: the claim says a redelivered command whose key is
recorded with last status `FAILURE` gets a FAILURE ack re-emitted.
`checkIdempotent` (kafka.go:250) never reads `last_status`, and the `withTx`
closure returns with the initial `status = "SUCCESS"`: a key recorded as
`FAILURE` still yields a SUCCESS ack (with empty event and payload). -/
theorem c7_counterexample :
    ackOf ⟨[], 1, [("k", "FAILURE", "t")], []⟩ "k"
        ⟨"t", "Read", "Message", [("id", PVal.s "1")]⟩ none =
      ⟨"t", "SUCCESS", "", [], none⟩ := by
  rfl

/-- C7 amended: for every redelivered command whose idempotency key is
already recorded, the step processor skips the domain effect (the database
is unchanged) and emits an ack with status `SUCCESS`, empty event and empty
payload — regardless of the recorded last status, which is never read. -/
theorem c7_processed_redelivery (db : DB) (msgKey : String) (cmd : Command)
    (txErr : Option String) (ackOk : Bool)
    (h : checkIdempotent db (effKey msgKey cmd) = true) :
    ackOf db msgKey cmd none = ⟨cmd.traceID, "SUCCESS", "", [], none⟩ ∧
    (consumeStep db msgKey (some cmd) txErr ackOk).1 = db := by
  constructor
  · simp [ackOf, runTx_processed db (effKey msgKey cmd) cmd h]
  · exact consumeStep_db_of_keyIn db msgKey cmd txErr ackOk h

/-- Witness for C7 amended at a concrete input: a key recorded as `SUCCESS`
is skipped and re-acked with status `SUCCESS`. -/
theorem c7_witness :
    ackOf ⟨[(1, "hello")], 2, [("k", "SUCCESS", "t")], []⟩ "k"
        ⟨"t", "Create", "Message", [("message", PVal.s "hello")]⟩ none =
      ⟨"t", "SUCCESS", "", [], none⟩ :=
  (c7_processed_redelivery ⟨[(1, "hello")], 2, [("k", "SUCCESS", "t")], []⟩ "k"
      ⟨"t", "Create", "Message", [("message", PVal.s "hello")]⟩ none true (by decide)).1

/-- C10: for every fresh command (key not yet recorded) whose operation is
none of Create/Read/Update/Delete, the step processor emits a FAILURE ack
with error code `UNSUPPORTED`, still inserts an idempotency record for the
key with last status `FAILURE`, and writes no `saga_log` row (and touches no
`messages` row): the committed state differs from the initial one exactly by
the new idempotency record. -/
theorem c10_unsupported (db : DB) (msgKey : String) (cmd : Command)
    (ackOk : Bool)
    (hfresh : checkIdempotent db (effKey msgKey cmd) = false)
    (hop : cmd.command ∉ (["Create", "Read", "Update", "Delete"] : List String)) :
    ackOf db msgKey cmd none =
      ⟨cmd.traceID, "FAILURE", "", [], some ⟨"UNSUPPORTED", "unknown command"⟩⟩ ∧
    (consumeStep db msgKey (some cmd) none ackOk).1 =
      { db with idem := (effKey msgKey cmd, "FAILURE", cmd.traceID) :: db.idem } := by
  simp only [List.mem_cons, List.mem_singleton, not_or] at hop
  obtain ⟨h1, h2, h3, h4⟩ := hop
  have hmark : markIdempotent db (effKey msgKey cmd) cmd.traceID "FAILURE" =
      { db with idem := (effKey msgKey cmd, "FAILURE", cmd.traceID) :: db.idem } := by
    have : db.idem.any (fun e => e.1 = effKey msgKey cmd) = false := hfresh
    simp [markIdempotent, this]
  have hrun : runTx db (effKey msgKey cmd) cmd =
      ⟨{ db with idem := (effKey msgKey cmd, "FAILURE", cmd.traceID) :: db.idem },
        "FAILURE", "", [], some ⟨"UNSUPPORTED", "unknown command"⟩⟩ := by
    unfold runTx
    simp only [hfresh, Bool.false_eq_true, if_false]
    rw [← hmark]
    split
    · simp_all
    · simp_all
    · simp_all
    · simp_all
    · rfl
  constructor
  · simp [ackOf, hrun]
  · simp [consumeStep, hrun]

/-- Witness for C10 at a concrete input: a fresh `Zap` command. -/
theorem c10_witness :
    ackOf ⟨[], 1, [], []⟩ "k" ⟨"t", "Zap", "Message", []⟩ none =
      ⟨"t", "FAILURE", "", [], some ⟨"UNSUPPORTED", "unknown command"⟩⟩ :=
  (c10_unsupported ⟨[], 1, [], []⟩ "k" ⟨"t", "Zap", "Message", []⟩ true
      (by decide) (by decide)).1

/-! ## Claim theorems: retry pipeline, step service, replayer, gateway -/

theorem parseAttempt_head_one (t : List (String × String)) :
    parseAttempt ((headerAttempt, "1") :: t) = 1 := by
  rfl

theorem publishNextRetry_head_one (m : KMsg) (e : String) (t : List (String × String))
    (h : m.headers = (headerAttempt, "1") :: t) :
    publishNextRetry m e =
      ("events.v1.retry.30s",
        ⟨m.key, m.value, m.headers ++ [(headerAttempt, "2"), (headerError, e)]⟩) := by
  unfold publishNextRetry
  rw [h, parseAttempt_head_one]
  rfl

theorem trajMsg_fail_head (n : Nat) :
    ∃ t, (trajMsg ⟨"k", "fail:x", []⟩ (n + 1)).headers = (headerAttempt, "1") :: t := by
  induction n with
  | zero => exact ⟨[(headerError, simulatedFailure)], rfl⟩
  | succ k ih =>
    obtain ⟨t, ht⟩ := ih
    refine ⟨t ++ [(headerAttempt, "2"), (headerError, simulatedFailure)], ?_⟩
    show (publishNextRetry (trajMsg ⟨"k", "fail:x", []⟩ (k + 1)) simulatedFailure).2.headers = _
    rw [publishNextRetry_head_one _ _ t ht]
    simp [ht]

/-- C3: the claim says the attempt carried in the retry-attempt header
strictly increases per hop and a persistently failing message lands exactly
once in the DLQ.  On the code this fails: `publishNextRetry` *appends* a new
`x-retry-attempt` header while `parseAttempt` returns the *first* such
header, so from the second hop on the parsed attempt is stuck at 1 and a
message that fails at every delivery bounces to `events.v1.retry.5s` once
and then to `events.v1.retry.30s` forever — it never escalates to
`events.v1.retry.2m` and never reaches `events.v1.dlq` (zero DLQ messages,
not exactly one).  This contradicts the repository's own guide ("Keeps
escalating to 30s, 2m, then DLQ"): the code is the slip. -/
theorem c3_attempt_stuck_never_dlq :
    trajTopic ⟨"k", "fail:x", []⟩ 0 = "events.v1.retry.5s" ∧
    ∀ n, trajTopic ⟨"k", "fail:x", []⟩ (n + 1) = "events.v1.retry.30s" := by
  constructor
  · rfl
  · intro n
    obtain ⟨t, ht⟩ := trajMsg_fail_head n
    unfold trajTopic
    rw [publishNextRetry_head_one _ _ t ht]

/-- C4 counterexample: the claim says every message published to the DLQ
carries a non-empty `original_topic` header.  The exhausted branch of
`publishNextRetry` (kafka-go-sarama-demo processor) publishes to
`events.v1.dlq` appending only `x-retry-attempt` and `x-error`: the produced
DLQ message carries no original-topic header under either naming
convention. -/
theorem c4_counterexample :
    (publishNextRetry ⟨"k", "fail:x", [(headerAttempt, "3")]⟩ simulatedFailure).1 =
        "events.v1.dlq" ∧
    ((publishNextRetry ⟨"k", "fail:x", [(headerAttempt, "3")]⟩ simulatedFailure).2.headers.filter
        (fun h => h.1 == "x-original-topic" || h.1 == "original_topic")) = [] := by
  constructor <;> rfl

theorem lastOriginalTopic_append (d : String) (l : List (String × String)) (v : String) :
    lastOriginalTopic d (l ++ [("x-original-topic", v)]) = v := by
  simp [lastOriginalTopic, List.foldl_append]

/-- C4 amended: the guarantee holds for the `saga-choreo-lab` step service
(the only DLQ producer that sets an original-topic header): on a fatal
outcome it publishes to the DLQ topic with an `x-original-topic = TOPIC_IN`
header appended last — the replayer's last-wins scan therefore resolves to
`TOPIC_IN`, which the service's env validation guarantees non-empty.  DLQ
messages of the `kafka-go-sarama-demo` processor carry no original-topic
header at all. -/
theorem c4_step_service_dlq_header (topicIn topicOut dlqTopic : String) (step : Int)
    (failMode : String) (flakyHit : Bool) (key : String)
    (hdrs : List (String × String)) (evt : Event)
    (hin : topicIn ≠ "")
    (hfatal : (Process step failMode flakyHit evt).2 = true) :
    (stepServiceProduce topicIn topicOut dlqTopic step failMode flakyHit key hdrs evt).1 =
        dlqTopic ∧
    lastOriginalTopic ""
        (stepServiceProduce topicIn topicOut dlqTopic step failMode flakyHit key
          hdrs evt).2.2.1 = topicIn ∧
    topicIn ≠ "" := by
  refine ⟨?_, ?_, hin⟩
  · simp [stepServiceProduce, hfatal]
  · simp only [stepServiceProduce, hfatal, if_true]
    exact lastOriginalTopic_append "" _ topicIn

/-- Witness for C4 amended at a concrete input: step 5 with
`FAIL_MODE=fatal`. -/
theorem c4_witness :
    (stepServiceProduce "saga.step5" "saga.done" "saga.dlq" 5 "fatal" false "k" []
        ⟨"s1", 5, 1, 0⟩).1 = "saga.dlq" :=
  (c4_step_service_dlq_header "saga.step5" "saga.done" "saga.dlq" 5 "fatal" false "k" []
      ⟨"s1", 5, 1, 0⟩ (by decide) (by decide)).1

/-- C5 counterexample: the claim says a matching DLQ message's offset is
committed only after the replay produce succeeds.  `RunDLQReplayer` fetches
with `kafka-go`'s `ReadMessage` on a group reader, which commits the
message's offset before returning it, and performs no commit afterwards: for
a message matching the filter the action trace is the offset commit
*followed by* the replay produce. -/
theorem c5_counterexample :
    replayStep "" "s" "k" "v" [("x-original-topic", "events.v1")] (some ⟨"s", 5, 1, 0⟩) =
      [RAction.commitOffset,
        RAction.replayTo "events.v1" "k" "v" [("x-original-topic", "events.v1")]] := by
  rfl

/-- C5 amended: for every DLQ message that matches the configured filter and
has a non-empty replay target (the last `x-original-topic` header, defaulting
to `REPLAY_TARGET`), the replayer republishes it to that target with
identical key, value and headers; the offset is committed on read — before,
and regardless of, the replay produce.  Messages not matching the filter are
skipped without replay (their offset equally committed on read). -/
theorem c5_replayer (replayDefault sagaFilter key value : String)
    (hdrs : List (String × String)) (evt : Event) :
    (¬ (sagaFilter ≠ "" ∧ evt.sagaID ≠ sagaFilter) →
      lastOriginalTopic replayDefault hdrs ≠ "" →
      replayStep replayDefault sagaFilter key value hdrs (some evt) =
        [RAction.commitOffset,
          RAction.replayTo (lastOriginalTopic replayDefault hdrs) key value hdrs]) ∧
    (sagaFilter ≠ "" ∧ evt.sagaID ≠ sagaFilter →
      replayStep replayDefault sagaFilter key value hdrs (some evt) =
        [RAction.commitOffset]) := by
  constructor
  · intro hmatch htarget
    simp [replayStep, hmatch, htarget]
  · intro hnm
    simp [replayStep, hnm]

/-- Witness for C5 amended at a concrete input: no filter configured, one
`x-original-topic` header. -/
theorem c5_witness :
    replayStep "fallback" "" "k" "v" [("x-original-topic", "t1")] (some ⟨"s", 5, 1, 0⟩) =
      [RAction.commitOffset,
        RAction.replayTo (lastOriginalTopic "fallback" [("x-original-topic", "t1")])
          "k" "v" [("x-original-topic", "t1")]] :=
  (c5_replayer "fallback" "" "k" "v" [("x-original-topic", "t1")] ⟨"s", 5, 1, 0⟩).1
    (by decide) (by decide)

/-- C8 counterexample: the claim says `GET /operations/{trace_id}` returns
410 once the result-cache TTL has expired without the ack being served.  In
`operationResultHandler` the only exits are the 200 encode and the 204 on
context timeout: polling an entry whose expiry (5) is already past (poll at
time 10) long-polls to the deadline and answers 204, not 410. -/
theorem c8_counterexample :
    operationResult "t"
        [(10, [("t", ⟨"t", "SUCCESS", "MessageCreated", [], none⟩, 5)])] =
      HttpResult.noContent := by
  rfl

/-- C8 amended: the handler returns 200 with the ack body when some poll
within the long-poll budget finds a cached, unexpired ack, and 204 otherwise
— both while the result is pending and after the cache TTL has expired; it
never returns 410. -/
theorem c8_never_gone (id : String) :
    ∀ polls : List (Nat × Cache),
      operationResult id polls ≠ HttpResult.gone ∧
      (operationResult id polls = HttpResult.noContent ↔
        ∀ p ∈ polls, getAck p.2 p.1 id = none) := by
  intro polls
  induction polls with
  | nil => simp [operationResult]
  | cons p ps ih =>
    obtain ⟨t, c⟩ := p
    cases hg : getAck c t id with
    | some a => simp [operationResult, hg]
    | none => simpa [operationResult, hg] using ih

/-- Witness for C8 amended at a concrete input. -/
theorem c8_witness :
    operationResult "t" [] ≠ HttpResult.gone :=
  (c8_never_gone "t" []).1

/-- C9: the gateway's background ack consumer caches an ack under its trace
id and marks the message's offset if and only if the value decodes into an
`Ack` with a non-empty `trace_id`; when either check fails the cache is
unchanged and the offset is not marked (so the message is redelivered after
restart). -/
theorem c9_ack_cache_iff :
    ∀ (cache : Cache) (now ttl : Nat) (d : Option Ack),
      ((ackConsumeStep cache now ttl d).2 = true ↔
        ∃ a, d = some a ∧ a.traceID ≠ "") ∧
      ((ackConsumeStep cache now ttl d).2 = false →
        (ackConsumeStep cache now ttl d).1 = cache) ∧
      (∀ a, d = some a → a.traceID ≠ "" →
        (ackConsumeStep cache now ttl d).1 = putAck cache now ttl a) := by
  intro cache now ttl d
  cases d with
  | none => simp [ackConsumeStep]
  | some a =>
    by_cases h : a.traceID = ""
    · simp [ackConsumeStep, h]
    · simp [ackConsumeStep, h]

/-- Witness for C9 at a concrete input: a decodable ack with non-empty trace
id ends up in the cache via `putAck`. -/
theorem c9_witness :
    (ackConsumeStep [] 0 120 (some ⟨"t", "SUCCESS", "MessageCreated", [], none⟩)).1 =
      putAck [] 0 120 ⟨"t", "SUCCESS", "MessageCreated", [], none⟩ :=
  (c9_ack_cache_iff [] 0 120 (some ⟨"t", "SUCCESS", "MessageCreated", [], none⟩)).2.2
    ⟨"t", "SUCCESS", "MessageCreated", [], none⟩ rfl (by decide)

end SagaLab
